import Mathlib

/-!
Verification development for the snake-game simulation engine
(`snake_game.py`).  The pure core of the program — grid geometry, snake
movement, enemy pursuit, food spawning and the per-tick update — is
embedded as executable Lean definitions; rendering, keyboard polling,
wall-clock timing and file persistence are outside the embedding.
Randomness (`random.randint` / `random.random`) is modelled by passing an
explicit stream of draws: each draw is a candidate cell together with an
integer giving the uniform `[0,1)` food-type roll in hundredths (the
source compares the roll only against 0.05 and 0.20, so the floor of
100 times the roll determines both comparisons exactly).
-/

/-- Grid cell, mirroring the `Position` dataclass: an integer coordinate
pair with componentwise equality. -/
structure Position where
  x : Int
  y : Int
deriving DecidableEq, Repr

/-- The four headings stored in `Snake.direction` (the source uses the
strings UP, DOWN, LEFT, RIGHT). -/
inductive Direction where
  | UP
  | DOWN
  | LEFT
  | RIGHT
deriving DecidableEq, Repr

/-- Food kinds from the `FoodType` enum. -/
inductive FoodType where
  | REGULAR
  | BONUS
  | SUPER
deriving DecidableEq, Repr

/-- A food item, mirroring the dict built by `Game.generate_food`.  The
`spawn_time` wall-clock field and the render color are dropped; the
engine-visible fields are kept. -/
structure Food where
  position : Position
  type : FoodType
  value : Int
  flash_state : Bool
deriving DecidableEq, Repr

/-- Enemy state from `Enemy.__init__`: position, the grid dimensions and
wall list it was constructed with, the cooldown counter and the move
delay (the constructor sets the delay to 2). -/
structure Enemy where
  position : Position
  grid_width : Int
  grid_height : Int
  walls : List (Int × Int)
  move_cooldown : Nat
  move_delay : Nat
deriving DecidableEq, Repr

/-- Snake state from `Snake.__init__`: ordered body cells (head first),
heading, and the pending-growth flag. -/
structure Snake where
  body : List Position
  direction : Direction
  growth_pending : Bool
deriving DecidableEq, Repr

/-- Snake construction (`Snake.__init__`): head at the start cell plus one
tail segment to its left, heading RIGHT, no growth pending. -/
def mkSnake (start : Position) : Snake :=
  { body := [start, ⟨start.x - 1, start.y⟩]
    direction := Direction.RIGHT
    growth_pending := false }

/-- One-step offset of a cell in a heading, as computed inline in
`Snake.move` (UP decrements y, DOWN increments y, LEFT decrements x,
RIGHT increments x). -/
def dirOffset : Direction → Position → Position
  | Direction.UP, p => ⟨p.x, p.y - 1⟩
  | Direction.DOWN, p => ⟨p.x, p.y + 1⟩
  | Direction.LEFT, p => ⟨p.x - 1, p.y⟩
  | Direction.RIGHT, p => ⟨p.x + 1, p.y⟩

/-- `Snake.move`: prepend the offset head; if growth is not pending drop
the last cell, otherwise keep all cells and clear the flag.  The source
indexes `body[0]`, which presupposes a nonempty body (it always holds: the
snake starts with two cells and `move` never empties the body); on an
empty body the embedding returns the state unchanged. -/
def Snake.move (s : Snake) : Snake :=
  match s.body with
  | [] => s
  | head :: _ =>
    let new_head := dirOffset s.direction head
    if s.growth_pending then
      { s with body := new_head :: s.body, growth_pending := false }
    else
      { s with body := (new_head :: s.body).dropLast }

/-- `Snake.grow`: set the pending-growth flag. -/
def Snake.grow (s : Snake) : Snake :=
  { s with growth_pending := true }

/-- Head cell `body[0]` (defaulting on the unreachable empty body). -/
def snakeHead (s : Snake) : Position :=
  s.body.headD ⟨0, 0⟩

/-- `Enemy.get_valid_moves`: the four axis-aligned candidates in the fixed
order Up, Down, Left, Right, filtered to drop cells out of bounds, on a
wall, or on a snake body cell other than the head (`snake_body[1:]`). -/
def Enemy.get_valid_moves (e : Enemy) (snake_body : List Position) : List Position :=
  let possible_moves : List Position :=
    [⟨e.position.x, e.position.y - 1⟩,
     ⟨e.position.x, e.position.y + 1⟩,
     ⟨e.position.x - 1, e.position.y⟩,
     ⟨e.position.x + 1, e.position.y⟩]
  possible_moves.filter fun m =>
    !(decide (m.x < 0) || decide (m.x ≥ e.grid_width)
        || decide (m.y < 0) || decide (m.y ≥ e.grid_height))
    && !(e.walls.any fun w => decide (w.1 = m.x) && decide (w.2 = m.y))
    && !((snake_body.drop 1).any fun b => decide (b.x = m.x) && decide (b.y = m.y))

/-- The `move_score` closure inside `Enemy.move_towards_snake`: a candidate
scores −2 (else +2) for agreeing in sign with the offset to the snake head
on the prioritized axis and −1 (else +1) on the other axis, where the
horizontal axis is prioritized exactly when |dx| > |dy|. -/
def move_score (e : Enemy) (snake_head : Position) (m : Position) : Int :=
  let dx := snake_head.x - e.position.x
  let dy := snake_head.y - e.position.y
  let mdx := m.x - e.position.x
  let mdy := m.y - e.position.y
  let helps_horizontal := (decide (dx > 0) && decide (mdx > 0)) || (decide (dx < 0) && decide (mdx < 0))
  let helps_vertical := (decide (dy > 0) && decide (mdy > 0)) || (decide (dy < 0) && decide (mdy < 0))
  if dx.natAbs > dy.natAbs then
    (if helps_horizontal then -2 else 2) + (if helps_vertical then -1 else 1)
  else
    (if helps_vertical then -2 else 2) + (if helps_horizontal then -1 else 1)

/-- Python `min(list, key=f)`: the first element attaining the minimal key,
`none` on the empty list. -/
def minBy (f : Position → Int) : List Position → Option Position
  | [] => none
  | m :: rest =>
    match minBy f rest with
    | none => some m
    | some r => if f m ≤ f r then some m else some r

/-- `Enemy.move_towards_snake`: when the cooldown is positive, decrement it
and stay; otherwise move to the valid candidate minimizing `move_score`
(ties to the earlier candidate, matching `min`) and reset the cooldown to
the move delay, or just reset the cooldown when no candidate survives. -/
def Enemy.move_towards_snake (e : Enemy) (snake_head : Position)
    (snake_body : List Position) : Enemy :=
  if e.move_cooldown > 0 then
    { e with move_cooldown := e.move_cooldown - 1 }
  else
    let valid_moves := e.get_valid_moves snake_body
    match minBy (move_score e snake_head) valid_moves with
    | none => { e with move_cooldown := e.move_delay }
    | some best_move => { e with position := best_move, move_cooldown := e.move_delay }

/-- The two named layouts of `Game.MAP_LAYOUTS`. -/
inductive MapStyle where
  | BASIC
  | MAZE
deriving DecidableEq, Repr

/-- The MAZE wall list of `Game.MAP_LAYOUTS`, written with the same range
expansions as the source (border rows 5 and 25, border columns 5 and 35,
five vertical interior walls, three horizontal connector rows sampled
every 5 columns). -/
def mazeWalls : List (Int × Int) :=
  ((List.range' 5 30).map fun i => ((i : Int), (5 : Int)))
  ++ ((List.range' 5 30).map fun i => ((i : Int), (25 : Int)))
  ++ ((List.range' 5 21).map fun i => ((5 : Int), (i : Int)))
  ++ ((List.range' 5 21).map fun i => ((35 : Int), (i : Int)))
  ++ ((List.range' 5 15).map fun i => ((10 : Int), (i : Int)))
  ++ ((List.range' 10 16).map fun i => ((15 : Int), (i : Int)))
  ++ ((List.range' 5 15).map fun i => ((20 : Int), (i : Int)))
  ++ ((List.range' 10 16).map fun i => ((25 : Int), (i : Int)))
  ++ ((List.range' 5 15).map fun i => ((30 : Int), (i : Int)))
  ++ ((List.range' 5 6 5).map fun i => ((i : Int), (10 : Int)))
  ++ ((List.range' 5 6 5).map fun i => ((i : Int), (15 : Int)))
  ++ ((List.range' 5 6 5).map fun i => ((i : Int), (20 : Int)))

/-- `Game.MAP_LAYOUTS`: BASIC has no walls, MAZE has the maze wall list. -/
def MAP_LAYOUTS : MapStyle → List (Int × Int)
  | MapStyle.BASIC => []
  | MapStyle.MAZE => mazeWalls

/-- Engine state: the fields of `Game.__init__` that the simulation core
reads or writes (screen, fonts, clock and flash timing are host-side and
are omitted). -/
structure GameState where
  grid_width : Int
  grid_height : Int
  score : Int
  high_score : Int
  walls : List (Int × Int)
  snake : Snake
  food : Food
  enemies : List Enemy
  spawn_enemies : Bool
  game_over : Bool
deriving DecidableEq, Repr

/-- Food kind selection in `Game.generate_food` from the `[0,1)` roll in
hundredths: below 0.05 (5 hundredths) SUPER (value 30), below 0.20 (20
hundredths) BONUS (value 20), else REGULAR (value 10). -/
def foodKindOfRoll (roll : Int) : FoodType × Int :=
  if roll < 5 then (FoodType.SUPER, 30)
  else if roll < 20 then (FoodType.BONUS, 20)
  else (FoodType.REGULAR, 10)

/-- The acceptance test of the retry loop in `Game.generate_food`: the
drawn cell must avoid every snake body cell, every wall and every enemy
position. -/
def foodPosFree (snake_body : List Position) (walls : List (Int × Int))
    (enemies : List Enemy) (p : Position) : Bool :=
  !(snake_body.any fun b => decide (b.x = p.x) && decide (b.y = p.y))
  && !(walls.any fun w => decide (w.1 = p.x) && decide (w.2 = p.y))
  && !(enemies.any fun e => decide (e.position.x = p.x) && decide (e.position.y = p.y))

/-- `Game.generate_food` over an explicit stream of random draws (cell and
food-type roll): return a food item at the first drawn cell that passes
`foodPosFree`; `none` when the stream runs out, standing for the unbounded
retry loop failing to find a free cell. -/
def generate_food (snake_body : List Position) (walls : List (Int × Int))
    (enemies : List Enemy) : List (Position × Int) → Option Food
  | [] => none
  | (p, roll) :: rest =>
    if foodPosFree snake_body walls enemies p then
      let kind := foodKindOfRoll roll
      some { position := p, type := kind.1, value := kind.2, flash_state := false }
    else
      generate_food snake_body walls enemies rest

/-- `Game.check_collision`: the head is out of the grid, on a non-head
body cell (`body[1:]`), or on a wall. -/
def checkCollision (g : GameState) : Bool :=
  let head := snakeHead g.snake
  (decide (head.x < 0) || decide (head.x ≥ g.grid_width)
      || decide (head.y < 0) || decide (head.y ≥ g.grid_height))
  || ((g.snake.body.drop 1).any fun b => decide (b.x = head.x) && decide (b.y = head.y))
  || (g.walls.any fun w => decide (w.1 = head.x) && decide (w.2 = head.y))

/-- High-score update on game over: `if score > high_score` take the score
(the file write in `save_high_score` is host-side persistence). -/
def hsUpdate (high score : Int) : Int :=
  if score > high then score else high

/-- One key press handled by `Game.handle_events`: the requested direction
is taken unless the current direction is its exact opposite, in which case
the current direction is kept. -/
def set_heading (cur : Direction) (d : Direction) : Direction :=
  match d with
  | Direction.UP => if cur ≠ Direction.DOWN then Direction.UP else cur
  | Direction.DOWN => if cur ≠ Direction.UP then Direction.DOWN else cur
  | Direction.LEFT => if cur ≠ Direction.RIGHT then Direction.LEFT else cur
  | Direction.RIGHT => if cur ≠ Direction.LEFT then Direction.RIGHT else cur

/-- The exact reverse of a heading. -/
def reverseDir : Direction → Direction
  | Direction.UP => Direction.DOWN
  | Direction.DOWN => Direction.UP
  | Direction.LEFT => Direction.RIGHT
  | Direction.RIGHT => Direction.LEFT

/-- The enemy phase of `Game.update` (lines 321-333): when enemies are
enabled, every enemy moves via its pursuit heuristic against the current
snake, and the game terminates if any post-move enemy position equals the
post-move head (`head` was captured right after the snake moved). -/
def enemyPhase (g : GameState) (head : Position) : GameState :=
  if g.spawn_enemies then
    let es := g.enemies.map fun e =>
      Enemy.move_towards_snake e (snakeHead g.snake) g.snake.body
    if es.any fun e => decide (e.position = head) then
      { g with
          enemies := es
          game_over := true
          high_score := hsUpdate g.high_score g.score }
    else
      { g with enemies := es }
  else g

/-- `Game.update`: move the snake; on a grid/self/wall collision set
`game_over` (updating the high score) and stop; otherwise handle food
pickup (score, growth flag, a fresh food draw), then run the enemy phase.
The food-flash toggling between the food and enemy phases is wall-clock
driven and render-only, so it is omitted.  The result is `none` exactly
when a food draw was needed and the draw stream was exhausted. -/
def updateGame (g : GameState) (draws : List (Position × Int)) : Option GameState :=
  let g1 : GameState := { g with snake := Snake.move g.snake }
  if checkCollision g1 then
    some { g1 with game_over := true, high_score := hsUpdate g1.high_score g1.score }
  else
    let head := snakeHead g1.snake
    if head = g1.food.position then
      match generate_food g1.snake.body g1.walls g1.enemies draws with
      | none => none
      | some f =>
        some (enemyPhase
          { g1 with
              score := g1.score + g1.food.value
              snake := Snake.grow g1.snake
              food := f } head)
    else some (enemyPhase g1 head)

/-- One iteration of the `Game.run` loop: the loop condition
`while not self.game_over` means a terminated engine is never updated
again — the tick is a no-op on a terminal state. -/
def gameTick (g : GameState) (draws : List (Position × Int)) : Option GameState :=
  if g.game_over then some g else updateGame g draws

/-- The score `Game.run` returns once the loop exits. -/
def finalScore (g : GameState) : Int :=
  g.score

/-- Game construction: `Game.__init__` (cell size 20, grid dimensions from
the window size, snake centered, score 0) followed by the Menu's layout
assignment, with food drawn from the given stream against the selected
layout.  Enemy configuration is left disabled as in `__init__`; the
high score loaded from disk is modelled as 0. -/
def mkGame (width height : Nat) (style : MapStyle)
    (draws : List (Position × Int)) : Option GameState :=
  let gw : Int := (width / 20 : Nat)
  let gh : Int := (height / 20 : Nat)
  let walls := MAP_LAYOUTS style
  let snake := mkSnake ⟨gw / 2, gh / 2⟩
  match generate_food snake.body walls [] draws with
  | none => none
  | some f =>
    some { grid_width := gw
           grid_height := gh
           score := 0
           high_score := 0
           walls := walls
           snake := snake
           food := f
           enemies := []
           spawn_enemies := false
           game_over := false }

/-- Every wall cell of a state lies inside its grid rectangle. -/
def wallsInBounds (g : GameState) : Bool :=
  g.walls.all fun w =>
    decide (0 ≤ w.1) && decide (w.1 < g.grid_width)
      && decide (0 ≤ w.2) && decide (w.2 < g.grid_height)

/-! Helper lemmas. -/

/-- Growing only sets the flag; the body is untouched. -/
theorem grow_body (s : Snake) : (Snake.grow s).body = s.body := rfl

/-- Growing does not move the head. -/
theorem snakeHead_grow (s : Snake) : snakeHead (Snake.grow s) = snakeHead s := rfl

/-- Shape of `Snake.move` on a nonempty body. -/
theorem snake_move_eq (s : Snake) (p : Position) (rest : List Position)
    (hb : s.body = p :: rest) :
    Snake.move s =
      (if s.growth_pending then
        { s with body := dirOffset s.direction p :: s.body, growth_pending := false }
      else
        { s with body := (dirOffset s.direction p :: s.body).dropLast }) := by
  unfold Snake.move
  rw [hb]

/-- Body length after `Snake.move`: unchanged without pending growth,
one more with it. -/
theorem snake_move_length (s : Snake) (p : Position) (rest : List Position)
    (hb : s.body = p :: rest) :
    (Snake.move s).body.length =
      (if s.growth_pending then s.body.length + 1 else s.body.length) := by
  rw [snake_move_eq s p rest hb]
  by_cases hgp : s.growth_pending
  · simp [hgp]
  · simp [hgp, List.length_dropLast, hb]

/-- The new head after `Snake.move` is the offset of the old head and sits
at index 0. -/
theorem snake_move_head (s : Snake) (p : Position) (rest : List Position)
    (hb : s.body = p :: rest) :
    (Snake.move s).body.head? = some (dirOffset s.direction p) := by
  rw [snake_move_eq s p rest hb]
  by_cases hgp : s.growth_pending
  · simp [hgp]
  · simp [hgp, hb, List.dropLast_cons₂]

/-- The growth flag is always clear after `Snake.move` on a nonempty
body: either it was clear and is untouched, or it was pending and the
move clears it. -/
theorem snake_move_flag (s : Snake) (p : Position) (rest : List Position)
    (hb : s.body = p :: rest) :
    (Snake.move s).growth_pending = false := by
  rw [snake_move_eq s p rest hb]
  by_cases hgp : s.growth_pending
  · simp [hgp]
  · simp [hgp]

/-- `minBy` returns a value on every nonempty list. -/
theorem minBy_ne_none (f : Position → Int) (l : List Position) (hl : l ≠ []) :
    minBy f l ≠ none := by
  cases l with
  | nil => exact absurd rfl hl
  | cons m rest =>
    rw [minBy]
    cases minBy f rest with
    | none => simp
    | some r =>
      by_cases h : f m ≤ f r <;> simp [h]

/-- Characterization of `minBy` as the FIRST minimum: the list splits
around the result, everything before it scores strictly higher and
everything after it scores at least as high. -/
theorem minBy_split (f : Position → Int) (l : List Position) :
    ∀ x, minBy f l = some x →
      ∃ l1 l2, l = l1 ++ x :: l2 ∧ (∀ y ∈ l1, f x < f y) ∧ ∀ y ∈ l2, f x ≤ f y := by
  induction l with
  | nil => intro x h; simp [minBy] at h
  | cons m rest ih =>
    intro x h
    rw [minBy] at h
    cases hr : minBy f rest with
    | none =>
      rw [hr] at h
      dsimp only at h
      simp only [Option.some.injEq] at h
      subst h
      cases rest with
      | nil => exact ⟨[], [], rfl, by simp, by simp⟩
      | cons a b => exact absurd hr (minBy_ne_none f (a :: b) (by simp))
    | some r =>
      rw [hr] at h
      dsimp only at h
      obtain ⟨l1, l2, heq, h1, h2⟩ := ih r hr
      by_cases hle : f m ≤ f r
      · rw [if_pos hle] at h
        simp only [Option.some.injEq] at h
        subst h
        refine ⟨[], rest, rfl, by simp, ?_⟩
        intro y hy
        rw [heq] at hy
        rcases List.mem_append.mp hy with hmem | hmem
        · exact le_trans hle (le_of_lt (h1 y hmem))
        · rcases List.mem_cons.mp hmem with rfl | hmem
          · exact hle
          · exact le_trans hle (h2 y hmem)
      · rw [if_neg hle] at h
        simp only [Option.some.injEq] at h
        subst h
        push_neg at hle
        refine ⟨m :: l1, l2, by rw [heq, List.cons_append], ?_, h2⟩
        intro y hy
        rcases List.mem_cons.mp hy with rfl | hmem
        · exact hle
        · exact h1 y hmem

/-- The `minBy` result is a member of the list. -/
theorem minBy_mem (f : Position → Int) (l : List Position) (x : Position)
    (h : minBy f l = some x) : x ∈ l := by
  obtain ⟨l1, l2, heq, -, -⟩ := minBy_split f l x h
  rw [heq]
  exact List.mem_append.mpr (Or.inr (List.mem_cons_self x l2))

/-- Unpacking the food-placement acceptance test into propositions. -/
theorem foodPosFree_iff (snake_body : List Position) (walls : List (Int × Int))
    (enemies : List Enemy) (p : Position) :
    foodPosFree snake_body walls enemies p = true ↔
      (∀ b ∈ snake_body, ¬(b.x = p.x ∧ b.y = p.y)) ∧
      (∀ w ∈ walls, ¬(w.1 = p.x ∧ w.2 = p.y)) ∧
      (∀ e ∈ enemies, ¬(e.position.x = p.x ∧ e.position.y = p.y)) := by
  simp only [foodPosFree, Bool.and_eq_true, Bool.not_eq_true', List.any_eq_false,
    Bool.and_eq_false_iff, decide_eq_false_iff_not, decide_eq_true_eq]
  exact and_assoc

/-- Every food item returned by `generate_food` passed the acceptance
test. -/
theorem generate_food_free (snake_body : List Position) (walls : List (Int × Int))
    (enemies : List Enemy) (draws : List (Position × Int)) (f : Food)
    (h : generate_food snake_body walls enemies draws = some f) :
    foodPosFree snake_body walls enemies f.position = true := by
  induction draws with
  | nil => simp [generate_food] at h
  | cons d rest ih =>
    obtain ⟨p, roll⟩ := d
    rw [generate_food] at h
    by_cases hfree : foodPosFree snake_body walls enemies p = true
    · rw [if_pos hfree] at h
      simp only [Option.some.injEq] at h
      subst h
      exact hfree
    · rw [if_neg hfree] at h
      exact ih h

/-- The enemy phase never touches the score, snake, food, walls or grid
dimensions. -/
theorem enemyPhase_fields (g : GameState) (head : Position) :
    (enemyPhase g head).score = g.score ∧
    (enemyPhase g head).snake = g.snake ∧
    (enemyPhase g head).food = g.food ∧
    (enemyPhase g head).walls = g.walls ∧
    (enemyPhase g head).grid_width = g.grid_width ∧
    (enemyPhase g head).grid_height = g.grid_height := by
  unfold enemyPhase
  by_cases hs : g.spawn_enemies
  · rw [if_pos hs]
    dsimp only
    by_cases hhit :
        ((g.enemies.map fun e =>
            Enemy.move_towards_snake e (snakeHead g.snake) g.snake.body).any
          fun e => decide (e.position = head)) = true
    · rw [if_pos hhit]
      exact ⟨rfl, rfl, rfl, rfl, rfl, rfl⟩
    · rw [if_neg hhit]
      exact ⟨rfl, rfl, rfl, rfl, rfl, rfl⟩
  · rw [if_neg hs]
    exact ⟨rfl, rfl, rfl, rfl, rfl, rfl⟩

/-- When no post-move enemy sits on the head, the enemy phase leaves the
terminal flag as it was. -/
theorem enemyPhase_not_over (g : GameState) (head : Position)
    (hhit : ((g.enemies.map fun e =>
        Enemy.move_towards_snake e (snakeHead g.snake) g.snake.body).any
      fun e => decide (e.position = head)) = false) :
    (enemyPhase g head).game_over = g.game_over := by
  unfold enemyPhase
  by_cases hs : g.spawn_enemies
  · rw [if_pos hs]
    dsimp only
    rw [hhit]
    rfl
  · rw [if_neg hs]

/-- Every successful tick preserves the wall list and the grid
dimensions. -/
theorem updateGame_static (g : GameState) (draws : List (Position × Int))
    (g' : GameState) (h : updateGame g draws = some g') :
    g'.walls = g.walls ∧ g'.grid_width = g.grid_width ∧
      g'.grid_height = g.grid_height := by
  unfold updateGame at h
  dsimp only at h
  by_cases hc : checkCollision { g with snake := Snake.move g.snake } = true
  · rw [if_pos hc] at h
    simp only [Option.some.injEq] at h
    subst h
    exact ⟨rfl, rfl, rfl⟩
  · rw [if_neg hc] at h
    by_cases hf : snakeHead (Snake.move g.snake) = g.food.position
    · rw [if_pos hf] at h
      cases hgen : generate_food (Snake.move g.snake).body g.walls g.enemies draws with
      | none => rw [hgen] at h; cases h
      | some f =>
        rw [hgen] at h
        dsimp only at h
        simp only [Option.some.injEq] at h
        subst h
        obtain ⟨-, -, -, hw, hgw, hgh⟩ := enemyPhase_fields _ _
        exact ⟨hw, hgw, hgh⟩
    · rw [if_neg hf] at h
      simp only [Option.some.injEq] at h
      subst h
      obtain ⟨-, -, -, hw, hgw, hgh⟩ := enemyPhase_fields _ _
      exact ⟨hw, hgw, hgh⟩

/-! Claim theorems. -/

/-- C1: when the advanced head cell is out of bounds, on a wall or on a
non-head body cell, the tick sets the terminal flag and neither the
score, nor the food item, nor the enemies change (food pickup and enemy
movement are skipped). -/
theorem terminal_collision_stops_tick (g : GameState) (draws : List (Position × Int))
    (hc : checkCollision { g with snake := Snake.move g.snake } = true) :
    ∃ g', updateGame g draws = some g' ∧ g'.game_over = true ∧
      g'.score = g.score ∧ g'.food = g.food ∧ g'.enemies = g.enemies := by
  have h : updateGame g draws =
      some { g with
          snake := Snake.move g.snake, game_over := true,
          high_score := hsUpdate g.high_score g.score } := by
    unfold updateGame
    dsimp only
    rw [if_pos hc]
  exact ⟨_, h, rfl, rfl, rfl, rfl⟩

/-- Witness for C1: the snake at (4,5) heading RIGHT walks into the wall
cell (5,5). -/
def gC1 : GameState :=
  { grid_width := 10, grid_height := 10, score := 7, high_score := 0
    walls := [(5, 5)]
    snake := { body := [⟨4, 5⟩, ⟨3, 5⟩], direction := Direction.RIGHT, growth_pending := false }
    food := { position := ⟨9, 9⟩, type := FoodType.REGULAR, value := 10, flash_state := false }
    enemies := [], spawn_enemies := false, game_over := false }

/-- Witness that C1 applies at a concrete state. -/
theorem terminal_collision_stops_tick_w :
    checkCollision { gC1 with snake := Snake.move gC1.snake } = true ∧
    ∃ g', updateGame gC1 [] = some g' ∧ g'.game_over = true ∧
      g'.score = gC1.score ∧ g'.food = gC1.food ∧ g'.enemies = gC1.enemies :=
  ⟨by decide, terminal_collision_stops_tick gC1 [] (by decide)⟩

/-- C2: a terminated engine is never ticked again — the run-loop guard
makes a further tick a no-op that keeps the whole state and reports the
same final score. -/
theorem terminated_tick_noop (g : GameState) (draws : List (Position × Int))
    (h : g.game_over = true) :
    gameTick g draws = some g ∧
      ∀ g', gameTick g draws = some g' → finalScore g' = finalScore g := by
  have ht : gameTick g draws = some g := by
    unfold gameTick
    rw [if_pos h]
  refine ⟨ht, ?_⟩
  intro g' hg'
  rw [ht] at hg'
  cases hg'
  rfl

/-- Witness for C2: a concrete terminated state. -/
def gC2 : GameState :=
  { gC1 with game_over := true, score := 42 }

/-- Witness that C2 applies at a concrete terminated state. -/
theorem terminated_tick_noop_w :
    gC2.game_over = true ∧
    (gameTick gC2 [] = some gC2 ∧
      ∀ g', gameTick gC2 [] = some g' → finalScore g' = finalScore gC2) :=
  ⟨rfl, terminated_tick_noop gC2 [] rfl⟩

/-- C3: after `Snake.move` the body length is the prior length, or the
prior length plus one exactly when growth was pending (and the flag ends
clear); the new head is the old head offset one step in the heading and
sits at index 0. -/
theorem advance_length_and_head (s : Snake) (p : Position) (rest : List Position)
    (hb : s.body = p :: rest) :
    (Snake.move s).body.head? = some (dirOffset s.direction p) ∧
    (Snake.move s).body.length =
      (if s.growth_pending then s.body.length + 1 else s.body.length) ∧
    (Snake.move s).growth_pending = false :=
  ⟨snake_move_head s p rest hb, snake_move_length s p rest hb,
   snake_move_flag s p rest hb⟩

/-- Witness that C3 applies to a concrete snake with growth pending. -/
theorem advance_length_and_head_w :
    (Snake.grow (mkSnake ⟨5, 5⟩)).body = ⟨5, 5⟩ :: [⟨4, 5⟩] ∧
    ((Snake.move (Snake.grow (mkSnake ⟨5, 5⟩))).body.head? =
        some (dirOffset (Snake.grow (mkSnake ⟨5, 5⟩)).direction ⟨5, 5⟩) ∧
      (Snake.move (Snake.grow (mkSnake ⟨5, 5⟩))).body.length =
        (if (Snake.grow (mkSnake ⟨5, 5⟩)).growth_pending then
          (Snake.grow (mkSnake ⟨5, 5⟩)).body.length + 1
        else (Snake.grow (mkSnake ⟨5, 5⟩)).body.length) ∧
      (Snake.move (Snake.grow (mkSnake ⟨5, 5⟩))).growth_pending = false) :=
  ⟨rfl, advance_length_and_head (Snake.grow (mkSnake ⟨5, 5⟩)) ⟨5, 5⟩ [⟨4, 5⟩] rfl⟩

/-- C8: requesting the exact reverse of the current heading is a no-op,
and every other request — including repeating the current heading — is
accepted as-is. -/
theorem heading_reversal_guard (cur d : Direction) :
    (d = reverseDir cur → set_heading cur d = cur) ∧
    (d ≠ reverseDir cur → set_heading cur d = d) := by
  cases cur <;> cases d <;> simp [set_heading, reverseDir]

/-- Witness that C8 applies at concrete headings: DOWN is rejected while
heading UP, LEFT is accepted. -/
theorem heading_reversal_guard_w :
    set_heading Direction.UP Direction.DOWN = Direction.UP ∧
    set_heading Direction.UP Direction.LEFT = Direction.LEFT :=
  ⟨(heading_reversal_guard Direction.UP Direction.DOWN).1 rfl,
   (heading_reversal_guard Direction.UP Direction.LEFT).2 (by decide)⟩

/-- A list `any` over a conjunction of two decidable tests that comes out
false refutes the conjunction for every member. -/
theorem any_pair_false {α : Type} {l : List α} {f g : α → Prop}
    [DecidablePred f] [DecidablePred g]
    (h : (l.any fun a => decide (f a) && decide (g a)) = false) :
    ∀ a ∈ l, ¬(f a ∧ g a) := by
  intro a ha hfg
  have hx := List.any_eq_false.mp h a ha
  simp [hfg.1, hfg.2] at hx

/-- C4: with cooldown 0, the enemy moves to the first valid candidate (in
the fixed Up, Down, Left, Right order) minimizing `move_score`, its
cooldown resets to the move delay, and with no surviving candidate it
stays in place with the cooldown likewise reset. -/
theorem enemy_pursuit_greedy (e : Enemy) (snake_head : Position)
    (snake_body : List Position) (hc : e.move_cooldown = 0) :
    (Enemy.move_towards_snake e snake_head snake_body).move_cooldown = e.move_delay ∧
    (Enemy.get_valid_moves e snake_body = [] →
      (Enemy.move_towards_snake e snake_head snake_body).position = e.position) ∧
    (Enemy.get_valid_moves e snake_body ≠ [] →
      ∃ l1 l2,
        Enemy.get_valid_moves e snake_body =
          l1 ++ (Enemy.move_towards_snake e snake_head snake_body).position :: l2 ∧
        (∀ y ∈ l1,
          move_score e snake_head (Enemy.move_towards_snake e snake_head snake_body).position
            < move_score e snake_head y) ∧
        (∀ y ∈ l2,
          move_score e snake_head (Enemy.move_towards_snake e snake_head snake_body).position
            ≤ move_score e snake_head y)) := by
  have hmove : Enemy.move_towards_snake e snake_head snake_body =
      (match minBy (move_score e snake_head) (Enemy.get_valid_moves e snake_body) with
       | none => { e with move_cooldown := e.move_delay }
       | some best_move => { e with position := best_move, move_cooldown := e.move_delay }) := by
    unfold Enemy.move_towards_snake
    rw [hc, if_neg (lt_irrefl 0)]
  cases hm : minBy (move_score e snake_head) (Enemy.get_valid_moves e snake_body) with
  | none =>
    rw [hm] at hmove
    dsimp only at hmove
    refine ⟨by rw [hmove], fun _ => by rw [hmove], fun hne => absurd hm (minBy_ne_none _ _ hne)⟩
  | some best =>
    rw [hm] at hmove
    dsimp only at hmove
    refine ⟨by rw [hmove], ?_, ?_⟩
    · intro hnil
      rw [hnil] at hm
      simp [minBy] at hm
    · intro _
      obtain ⟨l1, l2, heq, h1, h2⟩ := minBy_split _ _ best hm
      rw [hmove]
      exact ⟨l1, l2, heq, h1, h2⟩

/-- Witness enemy for C4 and C5: at (5,5) on an empty 10 by 10 grid with
cooldown 0, chasing a head at (8,6). -/
def eC4 : Enemy :=
  { position := ⟨5, 5⟩, grid_width := 10, grid_height := 10, walls := []
    move_cooldown := 0, move_delay := 2 }

/-- Witness that C4 applies at a concrete enemy state. -/
theorem enemy_pursuit_greedy_w :
    eC4.move_cooldown = 0 ∧
    ((Enemy.move_towards_snake eC4 ⟨8, 6⟩ [⟨8, 6⟩]).move_cooldown = eC4.move_delay ∧
      (Enemy.get_valid_moves eC4 [⟨8, 6⟩] = [] →
        (Enemy.move_towards_snake eC4 ⟨8, 6⟩ [⟨8, 6⟩]).position = eC4.position) ∧
      (Enemy.get_valid_moves eC4 [⟨8, 6⟩] ≠ [] →
        ∃ l1 l2,
          Enemy.get_valid_moves eC4 [⟨8, 6⟩] =
            l1 ++ (Enemy.move_towards_snake eC4 ⟨8, 6⟩ [⟨8, 6⟩]).position :: l2 ∧
          (∀ y ∈ l1,
            move_score eC4 ⟨8, 6⟩ (Enemy.move_towards_snake eC4 ⟨8, 6⟩ [⟨8, 6⟩]).position
              < move_score eC4 ⟨8, 6⟩ y) ∧
          (∀ y ∈ l2,
            move_score eC4 ⟨8, 6⟩ (Enemy.move_towards_snake eC4 ⟨8, 6⟩ [⟨8, 6⟩]).position
              ≤ move_score eC4 ⟨8, 6⟩ y))) :=
  ⟨rfl, enemy_pursuit_greedy eC4 ⟨8, 6⟩ [⟨8, 6⟩] rfl⟩

/-- C5: whenever an enemy with cooldown 0 has at least one valid
candidate, the cell it moves to is in bounds, not a wall, and not a
non-head snake body cell. -/
theorem enemy_move_legal (e : Enemy) (snake_head : Position)
    (snake_body : List Position) (p : Position) (hc : e.move_cooldown = 0)
    (hne : Enemy.get_valid_moves e snake_body ≠ [])
    (hp : (Enemy.move_towards_snake e snake_head snake_body).position = p) :
    (0 ≤ p.x ∧ p.x < e.grid_width ∧ 0 ≤ p.y ∧ p.y < e.grid_height) ∧
    (∀ w ∈ e.walls, ¬(w.1 = p.x ∧ w.2 = p.y)) ∧
    (∀ b ∈ snake_body.drop 1, ¬(b.x = p.x ∧ b.y = p.y)) := by
  subst hp
  cases hm : minBy (move_score e snake_head) (Enemy.get_valid_moves e snake_body) with
  | none => exact absurd hm (minBy_ne_none _ _ hne)
  | some best =>
    have hpb : (Enemy.move_towards_snake e snake_head snake_body).position = best := by
      unfold Enemy.move_towards_snake
      rw [hc, if_neg (lt_irrefl 0)]
      dsimp only
      rw [hm]
    rw [hpb]
    have hmem : best ∈ Enemy.get_valid_moves e snake_body := minBy_mem _ _ _ hm
    rw [Enemy.get_valid_moves] at hmem
    have hpred := (List.mem_filter.mp hmem).2
    simp only [Bool.and_eq_true, Bool.not_eq_true', Bool.or_eq_false_iff,
      decide_eq_false_iff_not] at hpred
    obtain ⟨⟨⟨⟨⟨hx0, hxw⟩, hy0⟩, hyh⟩, hwalls⟩, hbody⟩ := hpred
    refine ⟨⟨Int.not_lt.mp hx0, Int.not_le.mp hxw, Int.not_lt.mp hy0, Int.not_le.mp hyh⟩,
      ?_, ?_⟩
    · exact any_pair_false hwalls
    · exact any_pair_false hbody

/-- Witness that C5 applies at a concrete enemy state (the chosen cell is
(6,5), one step toward the head). -/
theorem enemy_move_legal_w :
    eC4.move_cooldown = 0 ∧ Enemy.get_valid_moves eC4 [⟨8, 6⟩] ≠ [] ∧
    (Enemy.move_towards_snake eC4 ⟨8, 6⟩ [⟨8, 6⟩]).position = ⟨6, 5⟩ ∧
    (((0 : Int) ≤ (6 : Int) ∧ (6 : Int) < eC4.grid_width ∧
        (0 : Int) ≤ (5 : Int) ∧ (5 : Int) < eC4.grid_height) ∧
      (∀ w ∈ eC4.walls, ¬(w.1 = (6 : Int) ∧ w.2 = (5 : Int))) ∧
      (∀ b ∈ ([⟨8, 6⟩] : List Position).drop 1, ¬(b.x = (6 : Int) ∧ b.y = (5 : Int)))) :=
  ⟨rfl, by decide, by decide,
    enemy_move_legal eC4 ⟨8, 6⟩ [⟨8, 6⟩] ⟨6, 5⟩ rfl (by decide) (by decide)⟩

/-- C6: every food item `generate_food` returns sits on a cell that
coincides with no snake body cell, no wall, and no enemy position. -/
theorem food_avoids_occupied (snake_body : List Position) (walls : List (Int × Int))
    (enemies : List Enemy) (draws : List (Position × Int)) (f : Food)
    (h : generate_food snake_body walls enemies draws = some f) :
    (∀ b ∈ snake_body, ¬(b.x = f.position.x ∧ b.y = f.position.y)) ∧
    (∀ w ∈ walls, ¬(w.1 = f.position.x ∧ w.2 = f.position.y)) ∧
    (∀ e ∈ enemies, ¬(e.position.x = f.position.x ∧ e.position.y = f.position.y)) :=
  (foodPosFree_iff snake_body walls enemies f.position).mp
    (generate_food_free snake_body walls enemies draws f h)

/-- Witness food item for C6. -/
def fC6 : Food :=
  { position := ⟨4, 4⟩, type := FoodType.REGULAR, value := 10, flash_state := false }

/-- Witness that C6 applies to a concrete draw stream whose first draw is
rejected (it hits the snake) and whose second is accepted. -/
theorem food_avoids_occupied_w :
    generate_food [⟨2, 2⟩] [(3, 3)] []
        [(⟨2, 2⟩, (50 : Int)), (⟨4, 4⟩, (50 : Int))] = some fC6 ∧
    ((∀ b ∈ ([⟨2, 2⟩] : List Position), ¬(b.x = fC6.position.x ∧ b.y = fC6.position.y)) ∧
      (∀ w ∈ ([(3, 3)] : List (Int × Int)), ¬(w.1 = fC6.position.x ∧ w.2 = fC6.position.y)) ∧
      (∀ e ∈ ([] : List Enemy),
        ¬(e.position.x = fC6.position.x ∧ e.position.y = fC6.position.y))) :=
  ⟨by decide,
    food_avoids_occupied [⟨2, 2⟩] [(3, 3)] []
      [(⟨2, 2⟩, (50 : Int)), (⟨4, 4⟩, (50 : Int))] fC6 (by decide)⟩

/-- Counterexample state for C7: snake at (4,5) heading RIGHT about to
eat the Regular food of value 10 at (5,5), score 0, no growth pending. -/
def gC7 : GameState :=
  { grid_width := 10, grid_height := 10, score := 0, high_score := 0
    walls := []
    snake := { body := [⟨4, 5⟩, ⟨3, 5⟩], direction := Direction.RIGHT, growth_pending := false }
    food := { position := ⟨5, 5⟩, type := FoodType.REGULAR, value := 10, flash_state := false }
    enemies := [], spawn_enemies := false, game_over := false }

/-- C7 counterexample: on the eating tick the score does become 10, but
the body length stays 2 (growth merely becomes pending) — not the
claimed prior length + 1 = 3. -/
theorem food_pickup_growth_cex :
    (updateGame gC7 [(⟨7, 7⟩, (50 : Int))]).map
        (fun g => (g.score, g.snake.body.length, g.snake.growth_pending)) =
      some (10, 2, true) ∧
    gC7.snake.body.length + 1 ≠ 2 := by decide

/-- C7 (amended): on a tick where the head lands on the Regular food of
value 10 at score 0 with no grid/self collision, the score becomes 10
and growth becomes pending: the body length is unchanged on this tick
and reaches prior + 1 on the next advance; the fresh food item avoids
every current snake body cell. -/
theorem food_pickup_growth_amended (g : GameState) (draws : List (Position × Int))
    (p : Position) (rest : List Position) (g' : GameState)
    (hb : g.snake.body = p :: rest)
    (hgp : g.snake.growth_pending = false)
    (hnc : checkCollision { g with snake := Snake.move g.snake } = false)
    (hf : snakeHead (Snake.move g.snake) = g.food.position)
    (hreg : g.food.type = FoodType.REGULAR)
    (hval : g.food.value = 10)
    (hs : g.score = 0)
    (h : updateGame g draws = some g') :
    g'.score = 10 ∧
    g'.snake.growth_pending = true ∧
    g'.snake.body.length = g.snake.body.length ∧
    (Snake.move g'.snake).body.length = g.snake.body.length + 1 ∧
    (∀ b ∈ g'.snake.body, ¬(b.x = g'.food.position.x ∧ b.y = g'.food.position.y)) := by
  have hcne : ¬(checkCollision { g with snake := Snake.move g.snake } = true) := by
    rw [hnc]
    exact Bool.false_ne_true
  unfold updateGame at h
  dsimp only at h
  rw [if_neg hcne, if_pos hf] at h
  cases hgen : generate_food (Snake.move g.snake).body g.walls g.enemies draws with
  | none =>
    rw [hgen] at h
    cases h
  | some f =>
    rw [hgen] at h
    dsimp only at h
    simp only [Option.some.injEq] at h
    subst h
    obtain ⟨hsc, hsn, hfd, -, -, -⟩ := enemyPhase_fields _ _
    have hmlen : (Snake.move g.snake).body.length = g.snake.body.length := by
      rw [snake_move_length g.snake p rest hb, hgp]
      simp
    have hmoved : (Snake.move g.snake).body ≠ [] := by
      intro hnil
      rw [hnil, hb] at hmlen
      simp at hmlen
    obtain ⟨q, qs, hq⟩ := List.exists_cons_of_ne_nil hmoved
    refine ⟨?_, ?_, ?_, ?_, ?_⟩
    · rw [hsc]
      dsimp only
      rw [hs, hval]
      decide
    · rw [hsn]
      rfl
    · rw [hsn]
      dsimp only
      rw [grow_body]
      exact hmlen
    · rw [hsn]
      dsimp only
      have : (Snake.grow (Snake.move g.snake)).body = q :: qs := by
        rw [grow_body]
        exact hq
      rw [snake_move_length (Snake.grow (Snake.move g.snake)) q qs this]
      dsimp only [Snake.grow]
      rw [if_pos rfl, hmlen]
    · intro b hbm
      rw [hsn] at hbm
      rw [hfd]
      dsimp only at hbm ⊢
      rw [grow_body] at hbm
      exact ((foodPosFree_iff _ _ _ _).mp
        (generate_food_free _ _ _ _ _ hgen)).1 b hbm

/-- The state after the eating tick of `gC7`. -/
def gC7r : GameState :=
  { gC7 with
      score := 10
      snake := { body := [⟨5, 5⟩, ⟨4, 5⟩], direction := Direction.RIGHT, growth_pending := true }
      food := { position := ⟨7, 7⟩, type := FoodType.REGULAR, value := 10, flash_state := false } }

/-- Witness that the amended C7 applies at the concrete eating tick. -/
theorem food_pickup_growth_amended_w :
    (gC7.snake.body = ⟨4, 5⟩ :: [⟨3, 5⟩] ∧ gC7.snake.growth_pending = false ∧
      checkCollision { gC7 with snake := Snake.move gC7.snake } = false ∧
      snakeHead (Snake.move gC7.snake) = gC7.food.position ∧
      gC7.food.type = FoodType.REGULAR ∧ gC7.food.value = 10 ∧ gC7.score = 0 ∧
      updateGame gC7 [(⟨7, 7⟩, (50 : Int))] = some gC7r) ∧
    (gC7r.score = 10 ∧ gC7r.snake.growth_pending = true ∧
      gC7r.snake.body.length = gC7.snake.body.length ∧
      (Snake.move gC7r.snake).body.length = gC7.snake.body.length + 1 ∧
      ∀ b ∈ gC7r.snake.body, ¬(b.x = gC7r.food.position.x ∧ b.y = gC7r.food.position.y)) :=
  ⟨⟨rfl, rfl, by decide, by decide, rfl, rfl, rfl, by decide⟩,
    food_pickup_growth_amended gC7 [(⟨7, 7⟩, (50 : Int))] ⟨4, 5⟩ [⟨3, 5⟩] gC7r rfl rfl
      (by decide) (by decide) rfl rfl rfl (by decide)⟩

/-- C9 counterexample: constructing the game with a 400 by 300 window
(20 by 15 grid) and the MAZE layout leaves wall cells outside the grid —
(35,5) is a MAZE obstacle but the grid is only 20 cells wide. -/
theorem layout_bounds_cex :
    (mkGame 400 300 MapStyle.MAZE [(⟨1, 1⟩, (50 : Int))]).map wallsInBounds =
      some false ∧
    ((35 : Int), (5 : Int)) ∈ MAP_LAYOUTS MapStyle.MAZE := by decide

/-- All MAZE wall cells lie in the rectangle [0,36) by [0,26). -/
theorem mazeWalls_bounded :
    mazeWalls.all (fun w => decide (0 ≤ w.1) && decide (w.1 < 36)
      && decide (0 ≤ w.2) && decide (w.2 < 26)) = true := by decide

/-- C9 (amended): for every constructed game whose grid is at least 36
cells wide and 26 cells tall (the default 800 by 600 window gives 40 by
30) and either named layout, every obstacle cell lies inside the grid
rectangle, and no tick ever changes the wall set. -/
theorem layout_bounds_amended (width height : Nat) (style : MapStyle)
    (draws : List (Position × Int)) (g : GameState)
    (hmk : mkGame width height style draws = some g)
    (hw : 36 ≤ width / 20) (hh : 26 ≤ height / 20) :
    wallsInBounds g = true ∧
      ∀ d g', updateGame g d = some g' → g'.walls = g.walls := by
  refine ⟨?_, fun d g' h' => (updateGame_static g d g' h').1⟩
  unfold mkGame at hmk
  dsimp only at hmk
  split at hmk
  · cases hmk
  · simp only [Option.some.injEq] at hmk
    subst hmk
    cases style with
    | BASIC => rfl
    | MAZE =>
      unfold wallsInBounds
      dsimp only
      rw [List.all_eq_true]
      intro w hwmem
      have hb := List.all_eq_true.mp mazeWalls_bounded w hwmem
      simp only [Bool.and_eq_true, decide_eq_true_eq] at hb ⊢
      obtain ⟨⟨⟨h0x, h36⟩, h0y⟩, h26⟩ := hb
      have hwcast : (36 : Int) ≤ ((width / 20 : Nat) : Int) := by exact_mod_cast hw
      have hhcast : (26 : Int) ≤ ((height / 20 : Nat) : Int) := by exact_mod_cast hh
      exact ⟨⟨⟨h0x, lt_of_lt_of_le h36 hwcast⟩, h0y⟩, lt_of_lt_of_le h26 hhcast⟩

/-- The default construction: 800 by 600 window, MAZE layout, food drawn
at (1,1). -/
def gC9 : GameState :=
  { grid_width := 40, grid_height := 30, score := 0, high_score := 0
    walls := mazeWalls
    snake := mkSnake ⟨20, 15⟩
    food := { position := ⟨1, 1⟩, type := FoodType.REGULAR, value := 10, flash_state := false }
    enemies := [], spawn_enemies := false, game_over := false }

set_option maxRecDepth 8000 in
/-- Witness that the amended C9 applies at the default construction. -/
theorem layout_bounds_amended_w :
    (mkGame 800 600 MapStyle.MAZE [(⟨1, 1⟩, (50 : Int))] = some gC9 ∧
      36 ≤ 800 / 20 ∧ 26 ≤ 600 / 20) ∧
    (wallsInBounds gC9 = true ∧
      ∀ d g', updateGame gC9 d = some g' → g'.walls = gC9.walls) :=
  ⟨⟨by decide, by decide, by decide⟩,
    layout_bounds_amended 800 600 MapStyle.MAZE [(⟨1, 1⟩, (50 : Int))] gC9
      (by decide) (by decide) (by decide)⟩

/-- C10: the snake-vs-enemy terminal check compares the head only against
post-move enemy positions: on a running tick that survives the grid/self
check, if the head sits on a cell some enemy occupied at the start of the
tick but no enemy occupies it after the enemy phase, the engine stays
running. -/
theorem enemy_check_postmove (g : GameState) (draws : List (Position × Int))
    (g' : GameState)
    (hrun : g.game_over = false)
    (hnc : checkCollision { g with snake := Snake.move g.snake } = false)
    (hpre : (g.enemies.any fun e =>
        decide (e.position = snakeHead (Snake.move g.snake))) = true)
    (hpost : ((g.enemies.map fun e =>
        Enemy.move_towards_snake e (snakeHead (Snake.move g.snake))
          (Snake.move g.snake).body).any fun e =>
        decide (e.position = snakeHead (Snake.move g.snake))) = false)
    (h : updateGame g draws = some g') :
    g'.game_over = false := by
  have hcne : ¬(checkCollision { g with snake := Snake.move g.snake } = true) := by
    rw [hnc]
    exact Bool.false_ne_true
  unfold updateGame at h
  dsimp only at h
  rw [if_neg hcne] at h
  by_cases hf : snakeHead (Snake.move g.snake) = g.food.position
  · rw [if_pos hf] at h
    cases hgen : generate_food (Snake.move g.snake).body g.walls g.enemies draws with
    | none =>
      rw [hgen] at h
      cases h
    | some f =>
      rw [hgen] at h
      dsimp only at h
      simp only [Option.some.injEq] at h
      subst h
      rw [enemyPhase_not_over]
      · exact hrun
      · exact hpost
  · rw [if_neg hf] at h
    simp only [Option.some.injEq] at h
    subst h
    rw [enemyPhase_not_over]
    · exact hrun
    · exact hpost

/-- Witness state for C10: the head moves onto (6,5), the cell the enemy
occupies at the start of the tick; the enemy (cooldown 0) moves to (6,4)
before the check. -/
def gC10 : GameState :=
  { grid_width := 10, grid_height := 10, score := 0, high_score := 0
    walls := []
    snake := { body := [⟨5, 5⟩, ⟨4, 5⟩], direction := Direction.RIGHT, growth_pending := false }
    food := { position := ⟨9, 9⟩, type := FoodType.REGULAR, value := 10, flash_state := false }
    enemies := [{ position := ⟨6, 5⟩, grid_width := 10, grid_height := 10, walls := []
                  move_cooldown := 0, move_delay := 2 }]
    spawn_enemies := true, game_over := false }

/-- The state after the C10 witness tick: head at (6,5), enemy at (6,4),
still running. -/
def gC10r : GameState :=
  { gC10 with
      snake := { body := [⟨6, 5⟩, ⟨5, 5⟩], direction := Direction.RIGHT, growth_pending := false }
      enemies := [{ position := ⟨6, 4⟩, grid_width := 10, grid_height := 10, walls := []
                    move_cooldown := 2, move_delay := 2 }] }

/-- Witness that C10 applies at the concrete tick. -/
theorem enemy_check_postmove_w :
    (gC10.game_over = false ∧
      checkCollision { gC10 with snake := Snake.move gC10.snake } = false ∧
      (gC10.enemies.any fun e =>
        decide (e.position = snakeHead (Snake.move gC10.snake))) = true ∧
      ((gC10.enemies.map fun e =>
          Enemy.move_towards_snake e (snakeHead (Snake.move gC10.snake))
            (Snake.move gC10.snake).body).any fun e =>
          decide (e.position = snakeHead (Snake.move gC10.snake))) = false ∧
      updateGame gC10 [] = some gC10r) ∧
    gC10r.game_over = false :=
  ⟨⟨rfl, by decide, by decide, by decide, by decide⟩,
    enemy_check_postmove gC10 [] gC10r rfl (by decide) (by decide) (by decide) (by decide)⟩
